import Mathlib

/-!
Verification of the vote-coordinator logic and query-building helpers of the
askdevs Q&A application.

The server actions `voteAnswer` and `voteQuestion` (answer/question actions
module) read the vote parameters, call the pure helper `getUpdateQuery` on
`(userId, hasUpVoted, hasDownVoted, action)` to obtain a single update
description, apply it to the store in one `findByIdAndUpdate` call, wrapping
any store failure in a new error with a fixed context message.

`getUpdateQuery` itself is defined in the `general.actions` module, which is
not part of the available sources; it is modelled here from the specification
(case table of section 4.1, output shape of section 6, and the design note of
section 9 about the both-flags-true input).

Collaborator boundaries (database connection, `findByIdAndUpdate`, `populate`)
are modelled as explicit parameters: an `Except String` outcome for fallible
calls, and the already-matched, already-sorted result list for `populate`.
-/

namespace AskDevs

/-- A vote action, the closed enumeration behind the `"upvote" | "downvote"`
string parameter of the vote server actions. -/
inductive VoteAction where
  | upvote
  | downvote
deriving DecidableEq, Repr

/-- One field of the update specification: the operation applied to one of the
two voter-id sets (spec section 6: `addUser(userId)`, `removeUser(userId)`,
or `none`). -/
inductive SetOp where
  | addUser (userId : String)
  | removeUser (userId : String)
  | none
deriving DecidableEq, Repr

/-- The update description returned by the vote coordinator: one operation for
the `upvoters` set and one for the `downvoters` set, applied atomically. -/
structure UpdateQuery where
  upvoters : SetOp
  downvoters : SetOp
deriving DecidableEq, Repr

/-- Modelled from the spec: `getUpdateQuery` is defined in the
`general.actions` module, which is absent from the available sources (only its
callers `voteAnswer` and `voteQuestion` are present). The six valid cases
follow the case table of spec section 4.1. For the both-flags-true input the
source performs no validation (spec section 9 treats it as unreachable rather
than validated), so the model checks the flag matching the action first and
returns the corresponding toggle-off update. -/
def getUpdateQuery (userId : String) (hasUpVoted hasDownVoted : Bool)
    (action : VoteAction) : UpdateQuery :=
  match action with
  | .upvote =>
    if hasUpVoted then ⟨.removeUser userId, .none⟩
    else if hasDownVoted then ⟨.addUser userId, .removeUser userId⟩
    else ⟨.addUser userId, .none⟩
  | .downvote =>
    if hasDownVoted then ⟨.none, .removeUser userId⟩
    else if hasUpVoted then ⟨.removeUser userId, .addUser userId⟩
    else ⟨.none, .addUser userId⟩

/-- The vote-relevant state of a Votable entity: its two voter-id sets
(spec section 3). -/
structure VState where
  upvoters : Finset String
  downvoters : Finset String
deriving DecidableEq

/-- Applying one set operation to one voter-id set (the store-side meaning of
an `UpdateQuery` field). -/
def applyOp (op : SetOp) (s : Finset String) : Finset String :=
  match op with
  | .addUser u => insert u s
  | .removeUser u => s.erase u
  | .none => s

/-- Applying a complete update description to a Votable's state: both fields
of the single atomic store update. -/
def applyUpdate (q : UpdateQuery) (st : VState) : VState :=
  ⟨applyOp q.upvoters st.upvoters, applyOp q.downvoters st.downvoters⟩

/-- One full vote operation at the store, with the membership flags re-read
from the current state (the flags the client supplies for a fresh snapshot). -/
def voteStep (st : VState) (userId : String) (action : VoteAction) : VState :=
  applyUpdate
    (getUpdateQuery userId (decide (userId ∈ st.upvoters))
      (decide (userId ∈ st.downvoters)) action) st

/-- A sequence of vote operations, each with flags re-read from the state its
predecessor produced. -/
def runVotes (st : VState) (ops : List (String × VoteAction)) : VState :=
  ops.foldl (fun s p => voteStep s p.1 p.2) st

/-- The set a vote action moves the user out of when switching direction:
the voter set of the opposite direction. -/
def oppositeSet (action : VoteAction) (st : VState) : Finset String :=
  match action with
  | .upvote => st.downvoters
  | .downvote => st.upvoters

/-- One vote step preserves the disjointness of the two voter sets when the
flags are read from the current state. -/
lemma voteStep_inter_empty (st : VState) (u : String) (a : VoteAction)
    (h : st.upvoters ∩ st.downvoters = ∅) :
    (voteStep st u a).upvoters ∩ (voteStep st u a).downvoters = ∅ := by
  have h' : ∀ x, x ∈ st.upvoters → x ∈ st.downvoters → False := by
    intro x h1 h2
    have hx : x ∈ st.upvoters ∩ st.downvoters := Finset.mem_inter.mpr ⟨h1, h2⟩
    simp [h] at hx
  rw [Finset.eq_empty_iff_forall_not_mem]
  intro x hx
  rw [Finset.mem_inter] at hx
  by_cases hu : u ∈ st.upvoters <;> by_cases hd : u ∈ st.downvoters <;> cases a <;>
    simp [voteStep, getUpdateQuery, applyUpdate, applyOp, hu, hd] at hx <;>
    aesop

end AskDevs

namespace AskDevs

/-- C1: for every input with at most one membership flag set, `getUpdateQuery`
returns exactly the update of the six-row case table: upvote while upvoted
removes the user from `upvoters` only; upvote while downvoted adds to
`upvoters` and removes from `downvoters`; upvote with no prior vote adds to
`upvoters` only; downvote while downvoted removes from `downvoters` only;
downvote while upvoted removes from `upvoters` and adds to `downvoters`;
downvote with no prior vote adds to `downvoters` only. -/
theorem getUpdateQuery_case_table (u : String) :
    getUpdateQuery u true false .upvote = ⟨.removeUser u, .none⟩ ∧
    getUpdateQuery u false true .upvote = ⟨.addUser u, .removeUser u⟩ ∧
    getUpdateQuery u false false .upvote = ⟨.addUser u, .none⟩ ∧
    getUpdateQuery u false true .downvote = ⟨.none, .removeUser u⟩ ∧
    getUpdateQuery u true false .downvote = ⟨.removeUser u, .addUser u⟩ ∧
    getUpdateQuery u false false .downvote = ⟨.none, .addUser u⟩ :=
  ⟨rfl, rfl, rfl, rfl, rfl, rfl⟩

/-- C2: from a state with disjoint voter sets, one application of the update
produced by `getUpdateQuery` with flags equal to the user's actual membership
keeps the sets disjoint, and hence any sequence of such vote operations keeps
`upvoters ∩ downvoters = ∅`. -/
theorem vote_preserves_disjointness (st : VState) (u : String) (hu hd : Bool)
    (a : VoteAction) (ops : List (String × VoteAction))
    (h : st.upvoters ∩ st.downvoters = ∅)
    (hhu : hu = decide (u ∈ st.upvoters)) (hhd : hd = decide (u ∈ st.downvoters)) :
    (applyUpdate (getUpdateQuery u hu hd a) st).upvoters ∩
      (applyUpdate (getUpdateQuery u hu hd a) st).downvoters = ∅ ∧
    (runVotes st ops).upvoters ∩ (runVotes st ops).downvoters = ∅ := by
  constructor
  · subst hhu hhd
    exact voteStep_inter_empty st u a h
  · clear hhu hhd
    induction ops generalizing st with
    | nil => exact h
    | cons p ops ih => exact ih _ (voteStep_inter_empty st p.1 p.2 h)

/-- Witness for C2 at a concrete state and operation sequence. -/
theorem vote_preserves_disjointness_witness :
    (applyUpdate (getUpdateQuery "a" false true .upvote) ⟨{"b"}, {"a"}⟩).upvoters ∩
      (applyUpdate (getUpdateQuery "a" false true .upvote) ⟨{"b"}, {"a"}⟩).downvoters = ∅ ∧
    (runVotes ⟨{"b"}, {"a"}⟩ [("a", .upvote), ("b", .downvote)]).upvoters ∩
      (runVotes ⟨{"b"}, {"a"}⟩ [("a", .upvote), ("b", .downvote)]).downvoters = ∅ :=
  vote_preserves_disjointness ⟨{"b"}, {"a"}⟩ "a" false true .upvote
    [("a", .upvote), ("b", .downvote)] (by decide) (by decide) (by decide)

/-- C3 counterexample: applying the same action twice with re-read flags does
not always return the entity to the pre-vote state. From the state where the
user is a downvoter, upvoting twice first switches the vote to an upvote and
then toggles it off, ending with the user in neither set instead of back in
`downvoters`. -/
theorem double_vote_not_restoring_counterexample :
    voteStep (voteStep ⟨∅, {"u"}⟩ "u" .upvote) "u" .upvote = (⟨∅, ∅⟩ : VState) ∧
    voteStep (voteStep ⟨∅, {"u"}⟩ "u" .upvote) "u" .upvote ≠ (⟨∅, {"u"}⟩ : VState) := by
  decide

/-- C3 amended: applying the same `(userId, action)` twice, with the flags
re-read from the intermediate state, returns the entity to the pre-vote state
whenever the user is not currently in the opposite direction's voter set (the
first application is a toggle-on or toggle-off, not a direction switch); in
particular toggling twice from the no-vote state restores the no-vote state. -/
theorem double_vote_toggle_restores (st : VState) (u : String) (a : VoteAction)
    (h : u ∉ oppositeSet a st) :
    voteStep (voteStep st u a) u a = st := by
  obtain ⟨up, down⟩ := st
  cases a with
  | upvote =>
    simp only [oppositeSet] at h
    by_cases hu : u ∈ up
    · simp [voteStep, getUpdateQuery, applyUpdate, applyOp, hu, h,
        Finset.not_mem_erase, Finset.insert_erase hu]
    · simp [voteStep, getUpdateQuery, applyUpdate, applyOp, hu, h,
        Finset.mem_insert_self, Finset.erase_insert hu]
  | downvote =>
    simp only [oppositeSet] at h
    by_cases hd : u ∈ down
    · simp [voteStep, getUpdateQuery, applyUpdate, applyOp, hd, h,
        Finset.not_mem_erase, Finset.insert_erase hd]
    · simp [voteStep, getUpdateQuery, applyUpdate, applyOp, hd, h,
        Finset.mem_insert_self, Finset.erase_insert hd]

/-- Witness for the amended C3: double upvote from the no-vote state restores
the no-vote state. -/
theorem double_vote_toggle_restores_witness :
    voteStep (voteStep ⟨∅, ∅⟩ "u" .upvote) "u" .upvote = (⟨∅, ∅⟩ : VState) :=
  double_vote_toggle_restores ⟨∅, ∅⟩ "u" .upvote (by decide)

/-- C4: from a state where the user is not in both sets at once, upvoting and
then downvoting (flags re-read between the two) leaves the user in
`downvoters` and out of `upvoters`; likewise a user currently in `upvoters`
who downvotes ends up in `downvoters` and out of `upvoters`. -/
theorem upvote_then_downvote_lands_in_downvoters (st : VState) (u : String)
    (h : ¬(u ∈ st.upvoters ∧ u ∈ st.downvoters)) :
    (u ∈ (voteStep (voteStep st u .upvote) u .downvote).downvoters ∧
      u ∉ (voteStep (voteStep st u .upvote) u .downvote).upvoters) ∧
    (u ∈ st.upvoters →
      u ∈ (voteStep st u .downvote).downvoters ∧
      u ∉ (voteStep st u .downvote).upvoters) := by
  obtain ⟨up, down⟩ := st
  simp only [not_and] at h
  by_cases hu : u ∈ up <;> by_cases hd : u ∈ down <;>
    simp_all [voteStep, getUpdateQuery, applyUpdate, applyOp,
      Finset.not_mem_erase, Finset.mem_insert_self]

/-- Witness for C4 at a concrete state: the user starts with no vote. -/
theorem upvote_then_downvote_lands_in_downvoters_witness :
    ("u" ∈ (voteStep (voteStep ⟨∅, ∅⟩ "u" .upvote) "u" .downvote).downvoters ∧
      "u" ∉ (voteStep (voteStep ⟨∅, ∅⟩ "u" .upvote) "u" .downvote).upvoters) ∧
    ("u" ∈ (⟨∅, ∅⟩ : VState).upvoters →
      "u" ∈ (voteStep ⟨∅, ∅⟩ "u" .downvote).downvoters ∧
      "u" ∉ (voteStep ⟨∅, ∅⟩ "u" .downvote).upvoters) :=
  upvote_then_downvote_lands_in_downvoters ⟨∅, ∅⟩ "u" (by decide)

/-- C5 counterexample: at the inconsistent snapshot input
`(currentlyUpvoted, currentlyDownvoted) = (true, true)` the vote computation
does not reject: it still returns an update description (here the toggle-off
of the upvote), since the source performs no validation of this input
(spec section 9 treats it as unreachable rather than validated). -/
theorem both_flags_not_rejected_counterexample :
    getUpdateQuery "u" true true .upvote = ⟨.removeUser "u", .none⟩ := by
  decide

/-- C5 amended: for an input with both membership flags true the vote
computation does not signal an invalid-input error; it returns the toggle-off
update of the action's own direction (the flag matching the action is checked
first), leaving the inconsistent snapshot to the caller. -/
theorem both_flags_toggle_off (u : String) :
    getUpdateQuery u true true .upvote = ⟨.removeUser u, .none⟩ ∧
    getUpdateQuery u true true .downvote = ⟨.none, .removeUser u⟩ :=
  ⟨rfl, rfl⟩

end AskDevs

namespace AskDevs

/-- The `voteAnswer` server action. The database-connection outcome and the
`Answer.findByIdAndUpdate` collaborator are explicit parameters; the result is
the action's outcome paired with the list of store update calls it issued.
A connection failure is rethrown with the collaborator's own message; a store
failure is rethrown as a new error with the fixed context message prepended.
The trailing `revalidatePath` cache hook performs no store update and is not
modelled. -/
def voteAnswer (connect : Except String Unit)
    (findByIdAndUpdate : String → UpdateQuery → Except String Unit)
    (answerId userId : String) (hasUpVoted hasDownVoted : Bool)
    (action : VoteAction) : Except String Unit × List UpdateQuery :=
  match connect with
  | .error e => (.error e, [])
  | .ok _ =>
    let updateQuery := getUpdateQuery userId hasUpVoted hasDownVoted action
    match findByIdAndUpdate answerId updateQuery with
    | .error e => (.error ("Error while trying to vote a answer" ++ e), [updateQuery])
    | .ok _ => (.ok (), [updateQuery])

/-- The `voteQuestion` server action, identical in shape to `voteAnswer` but
applying the update to the question identified by `questionId` through
`Question.findByIdAndUpdate` and using its own context message. -/
def voteQuestion (connect : Except String Unit)
    (findByIdAndUpdate : String → UpdateQuery → Except String Unit)
    (questionId userId : String) (hasUpVoted hasDownVoted : Bool)
    (action : VoteAction) : Except String Unit × List UpdateQuery :=
  match connect with
  | .error e => (.error e, [])
  | .ok _ =>
    let updateQuery := getUpdateQuery userId hasUpVoted hasDownVoted action
    match findByIdAndUpdate questionId updateQuery with
    | .error e => (.error ("Error while trying to vote a question" ++ e), [updateQuery])
    | .ok _ => (.ok (), [updateQuery])

/-- C6: the pure layer adds no failure condition of its own. `getUpdateQuery`
is a total function, and a vote action succeeds exactly when both collaborator
calls (connection, store update on the query `getUpdateQuery` built) succeed:
every failure originates at the collaborator boundary and is surfaced in the
result rather than swallowed. -/
theorem vote_failures_only_at_collaborators (connect : Except String Unit)
    (findA findQ : String → UpdateQuery → Except String Unit)
    (answerId questionId userId : String) (hasUpVoted hasDownVoted : Bool)
    (action : VoteAction) :
    ((voteAnswer connect findA answerId userId hasUpVoted hasDownVoted action).1 =
        Except.ok () ↔
      connect = Except.ok () ∧
        findA answerId (getUpdateQuery userId hasUpVoted hasDownVoted action) =
          Except.ok ()) ∧
    ((voteQuestion connect findQ questionId userId hasUpVoted hasDownVoted action).1 =
        Except.ok () ↔
      connect = Except.ok () ∧
        findQ questionId (getUpdateQuery userId hasUpVoted hasDownVoted action) =
          Except.ok ()) := by
  constructor
  · cases connect with
    | error e => simp [voteAnswer]
    | ok u =>
      cases u
      cases hf : findA answerId (getUpdateQuery userId hasUpVoted hasDownVoted action) with
      | error e => simp [voteAnswer, hf]
      | ok v => cases v; simp [voteAnswer, hf]
  · cases connect with
    | error e => simp [voteQuestion]
    | ok u =>
      cases u
      cases hf : findQ questionId (getUpdateQuery userId hasUpVoted hasDownVoted action) with
      | error e => simp [voteQuestion, hf]
      | ok v => cases v; simp [voteQuestion, hf]

/-- Witness for C6 at concrete collaborators: a succeeding store and a
failing store. -/
theorem vote_failures_only_at_collaborators_witness :
    ((voteAnswer (Except.ok ()) (fun _ _ => Except.ok ()) "a1" "u" false false
        .upvote).1 = Except.ok () ↔
      Except.ok () = (Except.ok () : Except String Unit) ∧
        (fun (_ : String) (_ : UpdateQuery) => (Except.ok () : Except String Unit)) "a1"
          (getUpdateQuery "u" false false .upvote) = Except.ok ()) ∧
    ((voteQuestion (Except.ok ()) (fun _ _ => Except.error "down") "q1" "u" false false
        .upvote).1 = Except.ok () ↔
      Except.ok () = (Except.ok () : Except String Unit) ∧
        (fun (_ : String) (_ : UpdateQuery) =>
          (Except.error "down" : Except String Unit)) "q1"
          (getUpdateQuery "u" false false .upvote) = Except.ok ()) :=
  vote_failures_only_at_collaborators (Except.ok ()) (fun _ _ => Except.ok ())
    (fun _ _ => Except.error "down") "a1" "q1" "u" false false .upvote

/-- C7 counterexample: a store failure with message `boom` is not propagated
unchanged: `voteAnswer` rethrows it as a new error whose message is the fixed
context text with `boom` appended, which differs from the original error. -/
theorem apply_failure_rewrapped_counterexample :
    (voteAnswer (Except.ok ()) (fun _ _ => Except.error "boom") "a1" "u" false false
        .upvote).1 = Except.error ("Error while trying to vote a answer" ++ "boom") ∧
    (voteAnswer (Except.ok ()) (fun _ _ => Except.error "boom") "a1" "u" false false
        .upvote).1 ≠ Except.error "boom" := by
  refine ⟨rfl, fun h => ?_⟩
  injection h with h'
  exact absurd h' (by decide)

/-- C7 amended: when the store update inside `voteAnswer` or `voteQuestion`
fails, the failure is always propagated to the caller — never swallowed — but
wrapped: the result is a new error whose message is the action's fixed context
text (`Error while trying to vote a answer` / `Error while trying to vote a
question`) followed by the collaborator's message. -/
theorem apply_failure_propagated_wrapped (connect : Except String Unit)
    (findA findQ : String → UpdateQuery → Except String Unit)
    (answerId questionId userId : String) (hasUpVoted hasDownVoted : Bool)
    (action : VoteAction) (e e' : String)
    (hc : connect = Except.ok ())
    (hfa : findA answerId (getUpdateQuery userId hasUpVoted hasDownVoted action) =
      Except.error e)
    (hfq : findQ questionId (getUpdateQuery userId hasUpVoted hasDownVoted action) =
      Except.error e') :
    (voteAnswer connect findA answerId userId hasUpVoted hasDownVoted action).1 =
      Except.error ("Error while trying to vote a answer" ++ e) ∧
    (voteQuestion connect findQ questionId userId hasUpVoted hasDownVoted action).1 =
      Except.error ("Error while trying to vote a question" ++ e') := by
  subst hc
  exact ⟨by simp [voteAnswer, hfa], by simp [voteQuestion, hfq]⟩

/-- Witness for the amended C7 at concrete failing collaborators. -/
theorem apply_failure_propagated_wrapped_witness :
    (voteAnswer (Except.ok ()) (fun _ _ => Except.error "boom") "a1" "u" false false
        .upvote).1 = Except.error ("Error while trying to vote a answer" ++ "boom") ∧
    (voteQuestion (Except.ok ()) (fun _ _ => Except.error "down") "q1" "u" false false
        .upvote).1 = Except.error ("Error while trying to vote a question" ++ "down") :=
  apply_failure_propagated_wrapped (Except.ok ()) (fun _ _ => Except.error "boom")
    (fun _ _ => Except.error "down") "a1" "q1" "u" false false .upvote "boom" "down"
    rfl rfl rfl

/-- C8: once the connection collaborator has succeeded, `voteAnswer` and
`voteQuestion` issue exactly one store update call, carrying the one complete
two-field description `getUpdateQuery` built; in the direction-switch cases
that single description both removes the user from the old set and adds the
user to the new set. -/
theorem single_complete_update_call (connect : Except String Unit)
    (findA findQ : String → UpdateQuery → Except String Unit)
    (answerId questionId userId : String) (hasUpVoted hasDownVoted : Bool)
    (action : VoteAction) (hc : connect = Except.ok ()) :
    (voteAnswer connect findA answerId userId hasUpVoted hasDownVoted action).2 =
      [getUpdateQuery userId hasUpVoted hasDownVoted action] ∧
    (voteQuestion connect findQ questionId userId hasUpVoted hasDownVoted action).2 =
      [getUpdateQuery userId hasUpVoted hasDownVoted action] ∧
    getUpdateQuery userId false true .upvote = ⟨.addUser userId, .removeUser userId⟩ ∧
    getUpdateQuery userId true false .downvote = ⟨.removeUser userId, .addUser userId⟩ := by
  subst hc
  refine ⟨?_, ?_, rfl, rfl⟩
  · cases hf : findA answerId (getUpdateQuery userId hasUpVoted hasDownVoted action) with
    | error e => simp [voteAnswer, hf]
    | ok v => cases v; simp [voteAnswer, hf]
  · cases hf : findQ questionId (getUpdateQuery userId hasUpVoted hasDownVoted action) with
    | error e => simp [voteQuestion, hf]
    | ok v => cases v; simp [voteQuestion, hf]

/-- Witness for C8 at concrete collaborators. -/
theorem single_complete_update_call_witness :
    (voteAnswer (Except.ok ()) (fun _ _ => Except.ok ()) "a1" "u" false true
        .upvote).2 = [getUpdateQuery "u" false true .upvote] ∧
    (voteQuestion (Except.ok ()) (fun _ _ => Except.error "down") "q1" "u" false true
        .upvote).2 = [getUpdateQuery "u" false true .upvote] ∧
    getUpdateQuery "u" false true .upvote = ⟨.addUser "u", .removeUser "u"⟩ ∧
    getUpdateQuery "u" true false .downvote = ⟨.removeUser "u", .addUser "u"⟩ :=
  single_complete_update_call (Except.ok ()) (fun _ _ => Except.ok ())
    (fun _ _ => Except.error "down") "a1" "q1" "u" false true .upvote rfl

end AskDevs

namespace AskDevs

/-- The sort options built by the `switch (filter)` statement of
`getQuestionAnswers`: a list of `(field, direction)` pairs, starting from the
empty object and set only for the four recognized filter values. `none`
models an absent filter parameter. -/
def answersSortOptions (filter : Option String) : List (String × Int) :=
  match filter with
  | some "highestUpvotes" => [("upvotes", -1)]
  | some "lowestUpvotes" => [("upvotes", 1)]
  | some "recent" => [("createdAt", -1)]
  | some "old" => [("createdAt", 1)]
  | _ => []

/-- The answers query executed by `getQuestionAnswers`: find by question,
skip `(page - 1) * limit`, take `limit`, sort by `sortOptions`. -/
structure AnswersQuery where
  question : String
  numberToSkip : Int
  limit : Int
  sort : List (String × Int)
deriving DecidableEq, Repr

/-- The query-building part of `getQuestionAnswers`: destructures the
parameters with defaults `page = 1`, `limit = 5`, computes the skip offset and
the sort options, and describes the single `Answer.find` call it executes. -/
def getQuestionAnswers (questionId : String) (filter : Option String)
    (page limit : Option Int) : AnswersQuery :=
  let p := page.getD 1
  let l := limit.getD 5
  { question := questionId
    numberToSkip := (p - 1) * l
    limit := l
    sort := answersSortOptions filter }

/-- C9: for any filter value other than the four recognized ones — including
an absent filter — `sortOptions` stays the empty object, so the answers query
is executed with no sort ordering, and no error is signalled (the query is
still built and run). -/
theorem unrecognized_filter_no_sort (questionId : String) (filter : Option String)
    (page limit : Option Int)
    (h1 : filter ≠ some "highestUpvotes") (h2 : filter ≠ some "lowestUpvotes")
    (h3 : filter ≠ some "recent") (h4 : filter ≠ some "old") :
    getQuestionAnswers questionId filter page limit =
      { question := questionId
        numberToSkip := (page.getD 1 - 1) * limit.getD 5
        limit := limit.getD 5
        sort := [] } := by
  have hs : answersSortOptions filter = [] := by
    unfold answersSortOptions
    split
    · exact absurd rfl h1
    · exact absurd rfl h2
    · exact absurd rfl h3
    · exact absurd rfl h4
    · rfl
  simp [getQuestionAnswers, hs]

/-- Witness for C9 at an unrecognized filter value and absent page/limit. -/
theorem unrecognized_filter_no_sort_witness :
    getQuestionAnswers "q1" (some "unknownFilter") none none =
      { question := "q1"
        numberToSkip := ((none : Option Int).getD 1 - 1) * (none : Option Int).getD 5
        limit := (none : Option Int).getD 5
        sort := [] } :=
  unrecognized_filter_no_sort "q1" (some "unknownFilter") none none
    (by decide) (by decide) (by decide) (by decide)

/-- The `getSavedQuestions` helper. The collaborator outcome is `userSaved`:
`none` when `User.findOne` matches no user, otherwise the user's saved
questions that match the populate filter, in the populate sort order, before
windowing. The populate options `skip: numberToSkip, limit: limit + 1` are the
store's window over that list, modelled by `drop`/`take`. The function returns
the windowed list untrimmed together with `isNext`. -/
def getSavedQuestions (userSaved : Option (List String))
    (numberToSkip limit : Nat) : Except String (List String × Bool) :=
  match userSaved with
  | none =>
    Except.error
      ("Error while trying to get the user and its saved questions" ++ "User not found")
  | some matched =>
    let saved := (matched.drop numberToSkip).take (limit + 1)
    Except.ok (saved, decide (saved.length > limit))

/-- The `getQuestionsByTag` helper, same windowing as `getSavedQuestions`:
`tagQuestions` is `none` when `Tag.findOne` matches no tag, otherwise the
tag's questions matching the populate filter in `createdAt` descending order;
the populate options `skip: numberToSkip, limit: limit + 1` window that list. -/
def getQuestionsByTag (tagQuestions : Option (List String))
    (numberToSkip limit : Nat) : Except String (List String × Bool) :=
  match tagQuestions with
  | none =>
    Except.error ("Error while trying to get the questions related to a tag" ++ "Tag not found")
  | some matched =>
    let questions := (matched.drop numberToSkip).take (limit + 1)
    Except.ok (questions, decide (questions.length > limit))

/-- C10: both helpers fetch up to `limit + 1` questions past the skip offset
and return every fetched question untrimmed, with `isNext` set exactly when
the fetched list is longer than `limit`; so whenever more than `limit`
questions match past the offset, the returned list has `limit + 1` entries —
one more than the page size — and `isNext` is true. -/
theorem overfetched_page_returned_untrimmed (matched : List String)
    (numberToSkip limit : Nat)
    (h : limit < (matched.drop numberToSkip).length) :
    getSavedQuestions (some matched) numberToSkip limit =
      Except.ok ((matched.drop numberToSkip).take (limit + 1),
        decide (((matched.drop numberToSkip).take (limit + 1)).length > limit)) ∧
    getQuestionsByTag (some matched) numberToSkip limit =
      Except.ok ((matched.drop numberToSkip).take (limit + 1),
        decide (((matched.drop numberToSkip).take (limit + 1)).length > limit)) ∧
    ((matched.drop numberToSkip).take (limit + 1)).length = limit + 1 ∧
    decide (((matched.drop numberToSkip).take (limit + 1)).length > limit) = true ∧
    ∀ fetched : List String,
      decide (fetched.length > limit) = false ↔ fetched.length ≤ limit := by
  have hlen : ((matched.drop numberToSkip).take (limit + 1)).length = limit + 1 := by
    rw [List.length_take]
    omega
  refine ⟨rfl, rfl, hlen, ?_, ?_⟩
  · rw [hlen]
    simp
  · intro fetched
    simp

/-- Witness for C10: three matching questions, skip 0, page size 1. -/
theorem overfetched_page_returned_untrimmed_witness :
    getSavedQuestions (some ["a", "b", "c"]) 0 1 =
      Except.ok ((["a", "b", "c"].drop 0).take 2,
        decide (((["a", "b", "c"].drop 0).take 2).length > 1)) ∧
    getQuestionsByTag (some ["a", "b", "c"]) 0 1 =
      Except.ok ((["a", "b", "c"].drop 0).take 2,
        decide (((["a", "b", "c"].drop 0).take 2).length > 1)) ∧
    ((["a", "b", "c"].drop 0).take 2).length = 2 ∧
    decide (((["a", "b", "c"].drop 0).take 2).length > 1) = true ∧
    ∀ fetched : List String, decide (fetched.length > 1) = false ↔ fetched.length ≤ 1 :=
  overfetched_page_returned_untrimmed ["a", "b", "c"] 0 1 (by decide)

end AskDevs
